import Mathlib

/-!
Verification development for the twilio-bot session orchestration core.

The definitions below are a shallow embedding of the Rust sources:
`src/bot/session.rs` (Session, SessionStore), `src/bot/backend.rs`
(CircuitBreaker, BackendClient::make_api_request, run_with_retry) and
`src/twilio/handlers.rs` (webhook handlers).  Stateful Rust code is
rendered as explicit state passing; HashMaps become association lists
with insert-replace semantics; timestamps and u64 values are Nat with
wrapping arithmetic made explicit where the source can wrap; network
I/O is abstracted into an explicit outcome parameter.  String handling
mirrors the Rust `str` operations at the character-list level
(ASCII-faithful `to_lowercase`, `split_whitespace`, `trim`).
-/

deriving instance DecidableEq for Except

namespace TwilioBot

/-! ### Character-level string helpers (models of Rust `str` methods) -/

/-- Model of Rust `str::trim`: drop whitespace from both ends. -/
def trimChars (l : List Char) : List Char :=
  ((l.dropWhile Char.isWhitespace).reverse.dropWhile Char.isWhitespace).reverse

/-- Model of Rust `str::trim` on whole strings. -/
def strTrim (s : String) : String := ⟨trimChars s.data⟩

/-- Model of Rust `str::split_whitespace`: maximal runs of
non-whitespace characters, in order, with no empty words.  The second
argument accumulates the current word in reverse. -/
def collectWords : List Char → List Char → List String
  | [], cur => if cur.isEmpty then [] else [String.mk cur.reverse]
  | c :: cs, cur =>
    if c.isWhitespace then
      if cur.isEmpty then collectWords cs []
      else String.mk cur.reverse :: collectWords cs []
    else collectWords cs (c :: cur)

/-- Model of `Vec<&str>::join(" ")` at the character level. -/
def joinWords : List String → List Char
  | [] => []
  | [w] => w.data
  | w :: ws => w.data ++ ' ' :: joinWords ws

/-- The normalization closure inside
`Session::unstable_speech_result_is_the_same` (session.rs:83-90):
lowercase, split on whitespace, join with single spaces, trim.
`Char.toLower` models Rust `to_lowercase` (faithful on ASCII). -/
def normalize (s : String) : String :=
  ⟨trimChars (joinWords (collectWords (s.data.map Char.toLower) []))⟩

/-- `ends_with_sentence_punctuation` from twiml.rs:224-227 (the variant
the webhook handlers import): trim, then check the last character. -/
def ends_with_sentence_punctuation (text : String) : Bool :=
  match (trimChars text.data).getLast? with
  | some c => c == '.' || c == '!' || c == '?'
  | none => false

/-! ### Association-list model of `std::collections::HashMap` -/

/-- Lookup in an association map (model of `HashMap::get`). -/
def mapLookup {α : Type} : List (String × α) → String → Option α
  | [], _ => none
  | (k, v) :: rest, k' => if k = k' then some v else mapLookup rest k'

/-- Removal from an association map (model of `HashMap::remove`; a
`HashMap` has unique keys, so removing every pair with the key is
faithful). -/
def mapRemove {α : Type} (m : List (String × α)) (k : String) : List (String × α) :=
  m.filter (fun p => p.1 != k)

/-- Insert-or-replace (model of `HashMap::insert`). -/
def mapInsert {α : Type} (m : List (String × α)) (k : String) (v : α) : List (String × α) :=
  (k, v) :: mapRemove m k

/-! ### Session (session.rs:22-113)

The message queue (`message_tx`/`message_rx`) and the free-form JSON
metadata are transport plumbing not needed by any modeled operation and
are omitted; every scalar field of the Rust struct is kept. -/

structure Session where
  session_id : String
  user_id : String
  name : String
  bot_type : String
  conversation_id : Option String
  creation_time : Nat
  last_activity_time : Nat
  speech_in_progress : Bool
  run_in_progress : Bool
  unstable_speech_result : Option String
  generation : Bool
  session_ends : Bool
deriving DecidableEq, Repr

/-- `Session::new` (session.rs:57-78).  The generated UUID and
`Utc::now()` are environment inputs, passed as `session_id` and `now`. -/
def Session.new (session_id user_id name bot_type : String)
    (conversation_id : Option String) (now : Nat) : Session :=
  { session_id := session_id
    user_id := user_id
    name := name
    bot_type := bot_type
    conversation_id := conversation_id
    creation_time := now
    last_activity_time := now
    speech_in_progress := false
    run_in_progress := false
    unstable_speech_result := none
    generation := false
    session_ends := false }

/-- `Session::unstable_speech_result_is_the_same` (session.rs:81-96). -/
def Session.unstable_speech_result_is_the_same (s : Session)
    (unstable_speech_result : String) : Bool :=
  match s.unstable_speech_result with
  | some last_result => normalize last_result == normalize unstable_speech_result
  | none => false

/-- `Session::update_activity_time` (session.rs:105-107), with
`Utc::now()` passed in. -/
def Session.update_activity_time (s : Session) (now : Nat) : Session :=
  { s with last_activity_time := now }

/-! ### SessionStore (session.rs:116-217) -/

structure SessionStore where
  sessions : List (String × Session)
  conversation_to_session : List (String × String)
  session_to_conversation : List (String × String)
deriving Repr

/-- `SessionStore::new` (session.rs:127-133). -/
def SessionStore.new : SessionStore :=
  { sessions := [], conversation_to_session := [], session_to_conversation := [] }

/-- `SessionStore::get_session_id_by_conversation` (session.rs:136-138). -/
def SessionStore.get_session_id_by_conversation (st : SessionStore)
    (conversation_id : String) : Option String :=
  mapLookup st.conversation_to_session conversation_id

/-- `SessionStore::set_conversation_mapping` (session.rs:199-202). -/
def SessionStore.set_conversation_mapping (st : SessionStore)
    (conversation_id session_id : String) : SessionStore :=
  { st with
    conversation_to_session := mapInsert st.conversation_to_session conversation_id session_id
    session_to_conversation := mapInsert st.session_to_conversation session_id conversation_id }

/-- `SessionStore::add_session` (session.rs:141-150). -/
def SessionStore.add_session (st : SessionStore) (session : Session) : SessionStore :=
  let st1 :=
    match session.conversation_id with
    | some conversation_id => st.set_conversation_mapping conversation_id session.session_id
    | none => st
  { st1 with sessions := mapInsert st1.sessions session.session_id session }

/-- `SessionStore::get_session` (session.rs:153-155). -/
def SessionStore.get_session (st : SessionStore) (session_id : String) : Option Session :=
  mapLookup st.sessions session_id

/-- `SessionStore::get_session_by_conversation` (session.rs:168-172). -/
def SessionStore.get_session_by_conversation (st : SessionStore)
    (conversation_id : String) : Option Session :=
  match mapLookup st.conversation_to_session conversation_id with
  | some session_id => mapLookup st.sessions session_id
  | none => none

/-- `SessionStore::remove_session` (session.rs:190-196): removes the
session-to-conversation entry, the matching conversation-to-session
entry, and the session itself, returning the removed session. -/
def SessionStore.remove_session (st : SessionStore) (session_id : String) :
    Option Session × SessionStore :=
  let st1 :=
    match mapLookup st.session_to_conversation session_id with
    | some conversation_id =>
      { st with
        session_to_conversation := mapRemove st.session_to_conversation session_id
        conversation_to_session := mapRemove st.conversation_to_session conversation_id }
    | none => st
  (mapLookup st1.sessions session_id, { st1 with sessions := mapRemove st1.sessions session_id })

/-- The pattern `if let Some(session) = store.get_session_mut(id)
{ mutate }` (session.rs:158-165 plus the caller's mutation): a hit
refreshes `last_activity_time`, then applies the caller's mutation. -/
def SessionStore.modify_session (st : SessionStore) (session_id : String) (now : Nat)
    (f : Session → Session) : SessionStore :=
  match mapLookup st.sessions session_id with
  | some s =>
    { st with sessions := mapInsert st.sessions session_id (f (s.update_activity_time now)) }
  | none => st

/-! ### Resilience layer (backend.rs)

Timestamps are milliseconds-since-epoch as `u64` in the source; here
they are `Nat`, with the `u64` wrapping subtraction of
`is_open` made explicit. -/

/-- Wrapping `u64` subtraction `a - b` (valid model for `a, b < 2^64`). -/
def u64sub (a b : Nat) : Nat := (2 ^ 64 + a % 2 ^ 64 - b % 2 ^ 64) % 2 ^ 64

/-- `BackendError` (backend.rs:24-32).  The message/inner payloads of
the non-recursive variants do not affect any control flow modeled here
and are dropped. -/
inductive BackendError where
  | RequestError
  | AuthError
  | ApiError
  | JsonError
  | CircuitBreakerOpen
  | RetryExhausted (inner : BackendError)
deriving DecidableEq, Repr

/-- The non-retry classification of `run_with_retry`
(backend.rs:243-245): `AuthError` and `CircuitBreakerOpen` are
returned immediately, everything else falls to the retry arm. -/
def BackendError.no_retry : BackendError → Bool
  | .AuthError => true
  | .CircuitBreakerOpen => true
  | _ => false

/-- `CircuitBreaker` (backend.rs:62-67): consecutive-failure count,
last-failure timestamp (ms), trip threshold, reset cooldown (ms). -/
structure CircuitBreaker where
  failures : Nat
  last_failure : Nat
  threshold : Nat
  reset_timeout_ms : Nat
deriving DecidableEq, Repr

/-- `CircuitBreaker::new` (backend.rs:71-78). -/
def CircuitBreaker.new (threshold : Nat) (reset_timeout_ms : Nat) : CircuitBreaker :=
  { failures := 0, last_failure := 0, threshold := threshold,
    reset_timeout_ms := reset_timeout_ms }

/-- `CircuitBreaker::record_success` (backend.rs:81-83). -/
def CircuitBreaker.record_success (cb : CircuitBreaker) : CircuitBreaker :=
  { cb with failures := 0 }

/-- `CircuitBreaker::record_failure` (backend.rs:86-95), with the
current time in ms passed in. -/
def CircuitBreaker.record_failure (cb : CircuitBreaker) (now : Nat) : CircuitBreaker :=
  { cb with failures := cb.failures + 1, last_failure := now % 2 ^ 64 }

/-- `CircuitBreaker::is_open` (backend.rs:98-118).  The source method
mutates the breaker (it zeroes the failure count when the cooldown has
elapsed, letting a trial request through), so the model returns the
openness flag together with the updated breaker state. -/
def CircuitBreaker.is_open (cb : CircuitBreaker) (now : Nat) : Bool × CircuitBreaker :=
  if cb.threshold ≤ cb.failures then
    if u64sub now cb.last_failure < cb.reset_timeout_ms then (true, cb)
    else (false, { cb with failures := 0 })
  else (false, cb)

/-- Abstraction of one HTTP exchange as seen by `make_api_request`:
either `request.send()` fails, or a response arrives with a status
code and, when the body is read as JSON, either a parsed value or a
decode failure (`none`). -/
inductive HttpExchange (α : Type) where
  | sendFailure
  | response (status : Nat) (parsed : Option α)
deriving DecidableEq, Repr

/-- Rust `StatusCode::is_success`: 2xx. -/
def isSuccessStatus (status : Nat) : Bool := 200 ≤ status && status < 300

/-- `BackendClient::make_api_request` (backend.rs:164-224), with the
network exchange abstracted as `ex` and the clock as `now`.  Returns
the call result, the circuit breaker afterwards (when one is
configured), and whether any network I/O was performed.  Notes kept
from the source: the breaker check precedes any I/O; a FORBIDDEN (403)
response maps to `AuthError` *without* recording a failure; any other
non-success status records a failure; `record_success` runs before the
JSON decode, so a decode failure still records a success.  (The body
read on the error path is modeled as always succeeding.) -/
def make_api_request {α : Type} (breaker : Option CircuitBreaker) (now : Nat)
    (ex : HttpExchange α) : Except BackendError α × Option CircuitBreaker × Bool :=
  let checked : Bool × Option CircuitBreaker :=
    match breaker with
    | some cb => let r := cb.is_open now; (r.1, some r.2)
    | none => (false, none)
  if checked.1 then
    (.error .CircuitBreakerOpen, checked.2, false)
  else
    match ex with
    | .sendFailure =>
      (.error .RequestError, checked.2.map (fun cb => cb.record_failure now), true)
    | .response status parsed =>
      if status == 403 then
        (.error .AuthError, checked.2, true)
      else if !isSuccessStatus status then
        (.error .ApiError, checked.2.map (fun cb => cb.record_failure now), true)
      else
        let recorded := checked.2.map (fun cb => cb.record_success)
        match parsed with
        | some v => (.ok v, recorded, true)
        | none => (.error .JsonError, recorded, true)

/-- Loop body of `BackendClient::run_with_retry` (backend.rs:227-265).
`f i` is the result of the `(i+1)`-th call to `self.run`; the returned
list holds the back-off delays slept between attempts, in order.  The
`fuel` argument only mirrors the loop's termination (the loop runs at
most `max_retries + 1` iterations because `attempts` grows by one per
iteration); `2u64::pow` wrapping is made explicit. -/
def run_with_retry_go {α : Type} (f : Nat → Except BackendError α)
    (base_delay_ms max_retries : Nat) :
    Nat → Nat → Option BackendError → Except BackendError α × List Nat
  | 0, _, last_error =>
    (.error (.RetryExhausted (last_error.getD .ApiError)), [])
  | fuel + 1, attempts, last_error =>
    if attempts ≤ max_retries then
      match f attempts with
      | .ok v => (.ok v, [])
      | .error e =>
        if e.no_retry then (.error e, [])
        else
          if attempts + 1 ≤ max_retries then
            let delay := base_delay_ms * 2 ^ (attempts + 1 - 1) % 2 ^ 64
            let r := run_with_retry_go f base_delay_ms max_retries fuel (attempts + 1) (some e)
            (r.1, delay :: r.2)
          else
            run_with_retry_go f base_delay_ms max_retries fuel (attempts + 1) (some e)
    else
      (.error (.RetryExhausted (last_error.getD .ApiError)), [])

/-- `BackendClient::run_with_retry` (backend.rs:227-265): `attempts`
starts at 0, the loop runs while `attempts <= max_retries`. -/
def run_with_retry {α : Type} (f : Nat → Except BackendError α)
    (max_retries base_delay_ms : Nat) : Except BackendError α × List Nat :=
  run_with_retry_go f base_delay_ms max_retries (max_retries + 2) 0 none

/-! ### Webhook handlers (handlers.rs)

The handlers are modeled as pure functions of the session store, the
form fields, the abstracted outcome of the backend call they make, and
the clock.  The TwiML built for the carrier is abstracted to the action
it encodes (hangup with an optional spoken message / gather-and-speak /
DTMF code playback), mirroring `create_hangup_response`,
`create_voice_response` and the `play_digits` branch. -/

/-- The carrier-facing action encoded by the TwiML a handler returns. -/
inductive TwimlAction where
  | hangup (message : Option String)
  | voice (text : String)
  | dtmf_code (code : String)
deriving DecidableEq, Repr

/-- Whether an action terminates the call. -/
def TwimlAction.is_hangup : TwimlAction → Bool
  | .hangup _ => true
  | _ => false

/-- HTTP status returned by the non-TwiML handlers. -/
inductive HStatus where
  | ok
  | internalServerError
deriving DecidableEq, Repr

/-- The slice of a backend `run` result the transcription handler reads
(handlers.rs:322-347): the optional `response` string and the optional
`metadata.SESSION_ENDS` boolean (absent components are `none`; the
source applies `unwrap_or(false)` to the flag). -/
structure RunResult where
  response : Option String
  metadata_session_ends : Option Bool
deriving DecidableEq, Repr

/-- `handle_partial_callback` (handlers.rs:420-500).  Inputs:
`partial_processing` from the config, the store, the `CallSid` and
`UnstableSpeechResult` form fields, the abstracted outcome of the
backend `start` call (used only when the handler reaches it), and the
clock.  Output: the HTTP status returned to the carrier, whether a
backend `start` call was issued, and the store afterwards.  Backend
client construction (a local, non-network operation) is modeled as
always succeeding. -/
def handle_partial_callback (partial_processing : Bool) (st : SessionStore)
    (call_sid unstable_speech_result : String)
    (start_result : Except BackendError Unit) (now : Nat) :
    HStatus × Bool × SessionStore :=
  if !partial_processing then (.ok, false, st)
  else if !ends_with_sentence_punctuation unstable_speech_result then (.ok, false, st)
  else
    match mapLookup st.conversation_to_session call_sid with
    | none => (.ok, false, st)
    | some session_id =>
      match mapLookup st.sessions session_id with
      | none => (.ok, false, st)
      | some s0 =>
        let s1 := s0.update_activity_time now
        if s1.session_ends then
          (.ok, false, { st with sessions := mapInsert st.sessions session_id s1 })
        else
          let should_process :=
            !s1.generation || !(s1.unstable_speech_result_is_the_same unstable_speech_result)
          let s2 :=
            if should_process then
              { s1 with run_in_progress := true, speech_in_progress := false,
                        unstable_speech_result := some unstable_speech_result,
                        generation := true }
            else s1
          let st2 := { st with sessions := mapInsert st.sessions session_id s2 }
          if should_process then
            match start_result with
            | .ok _ => (.ok, true, st2)
            | .error _ =>
              let st3 := st2.modify_session session_id now
                (fun s => { s with generation := false })
              (.internalServerError, true, st3)
          else (.ok, false, st2)

/-- `handle_call_transcription` (handlers.rs:231-417).  Inputs: the
store, the `CallSid` and `SpeechResult` form fields, the abstracted
result of `run_with_retry` (used only when the handler issues the run),
and the clock.  Output: the TwiML action and the store afterwards.
Backend client construction is modeled as always succeeding. -/
def handle_call_transcription (st : SessionStore) (call_sid transcription : String)
    (backend_result : Except BackendError RunResult) (now : Nat) :
    TwimlAction × SessionStore :=
  let expired : TwimlAction := .hangup (some "Sorry, your session has expired.")
  match mapLookup st.conversation_to_session call_sid with
  | none => (expired, st)
  | some session_id =>
    match mapLookup st.sessions session_id with
    | none => (expired, st)
    | some s0 =>
      let s1 := s0.update_activity_time now
      let st1 := { st with sessions := mapInsert st.sessions session_id s1 }
      if s1.session_ends then
        (.hangup none, st1)
      else
        let is_same_result := s1.unstable_speech_result_is_the_same transcription
        let has_generation := s1.generation
        let should_generate := if has_generation then !is_same_result else true
        if should_generate then
          let st2 := st1.modify_session session_id now
            (fun s => { s with run_in_progress := true, speech_in_progress := false,
                               unstable_speech_result := some transcription,
                               generation := true })
          match backend_result with
          | .ok result =>
            let ends := result.metadata_session_ends.getD false
            let st3 := st2.modify_session session_id now
              (fun s =>
                if ends then { s with generation := false, session_ends := true }
                else { s with generation := false })
            if ends then
              match result.response with
              | some response => (.hangup (some response), st3)
              | none => (.hangup none, st3)
            else
              match result.response with
              | some response =>
                if List.isPrefixOf "Code:".data response.data then
                  (.dtmf_code (strTrim ⟨response.data.drop 5⟩), st3)
                else
                  (.voice response, st3)
              | none =>
                (.voice "I\x27m sorry, I didn\x27t understand that.", st3)
          | .error _ =>
            let st3 := st2.modify_session session_id now
              (fun s => { s with generation := false })
            (.voice "I\x27m sorry, I\x27m having trouble processing your request right now.", st3)
        else
          (.voice "Could you please repeat that?", st1)

/-- The slice of `open_session`'s response `handle_incoming_call` reads:
the greeting inside `metadata.initialization_response`, when present. -/
structure OpenSessionOutcome where
  greeting : Option String
deriving DecidableEq, Repr

/-- `handle_incoming_call` (handlers.rs:50-136), reduced to the action
it returns to the carrier.  `client_ok` abstracts whether the local
backend-client construction succeeds; `open_result` abstracts the
backend `open_session` call.  Session/store bookkeeping on the success
path is not needed by the modeled claims and is omitted. -/
def handle_incoming_call (client_ok : Bool)
    (open_result : Except BackendError OpenSessionOutcome) : TwimlAction :=
  if !client_ok then
    .hangup (some "Sorry, we\x27re experiencing technical difficulties.")
  else
    match open_result with
    | .ok r => .voice (r.greeting.getD "Hello, welcome to our service.")
    | .error _ => .hangup (some "Sorry, we\x27re experiencing technical difficulties.")

/-- The two index maps are mutually inverse: a conversation id maps to
a session id exactly when that session id maps back to it. -/
def SessionStore.Bijective (st : SessionStore) : Prop :=
  ∀ c s : String,
    mapLookup st.conversation_to_session c = some s ↔
    mapLookup st.session_to_conversation s = some c

/-- The back-off delays slept when every attempt from attempt index `k`
on fails: `base * 2 ^ k, base * 2 ^ (k+1), …` (`r` entries, each with
the source's `u64` wrap made explicit). -/
def expected_delays (base : Nat) : Nat → Nat → List Nat
  | _, 0 => []
  | k, r + 1 => (base * 2 ^ k % 2 ^ 64) :: expected_delays base (k + 1) r

/-! ### Concrete fixtures used by witnesses and counterexamples -/

/-- A fresh session bound to conversation id CA1. -/
def exSession : Session := Session.new "S1" "u1" "alice" "twilio" (some "CA1") 0

/-- A store holding just `exSession`. -/
def exStore : SessionStore := SessionStore.new.add_session exSession

/-- `exSession` with the ending flag already set. -/
def exEndedSession : Session := { exSession with session_ends := true }

/-- A store holding just `exEndedSession`. -/
def exEndedStore : SessionStore := SessionStore.new.add_session exEndedSession

/-- A second session reusing conversation id CA1. -/
def exSession2 : Session := Session.new "S2" "u2" "bob" "twilio" (some "CA1") 0

/-- A store built by adding two sessions that carry the same
conversation id, through `add_session` alone. -/
def exDupStore : SessionStore := (SessionStore.new.add_session exSession).add_session exSession2

/-- `exSession` with speculative generation in flight on transcript
"Hello there.". -/
def exGenSession : Session :=
  { exSession with generation := true, unstable_speech_result := some "Hello there." }

/-- `exStore` with `exGenSession` stored under S1. -/
def exGenStore : SessionStore :=
  { exStore with sessions := mapInsert exStore.sessions "S1" exGenSession }

/-! ### Lemmas about the association-map model -/

theorem mapLookup_mapRemove {α : Type} (m : List (String × α)) (k k' : String) :
    mapLookup (mapRemove m k) k' = if k' = k then none else mapLookup m k' := by
  induction m with
  | nil => simp [mapRemove, mapLookup]
  | cons p rest ih =>
    obtain ⟨pk, pv⟩ := p
    simp only [mapRemove, List.filter_cons] at *
    by_cases h1 : pk = k
    · subst h1
      rw [if_neg (by simp)]
      rw [ih]
      by_cases h2 : k' = pk
      · simp [h2]
      · have h3 : ¬ pk = k' := fun h => h2 h.symm
        simp [mapLookup, h2, h3]
    · rw [if_pos (by simpa [bne_iff_ne] using h1)]
      by_cases h2 : pk = k'
      · have h3 : ¬ k' = k := fun h => h1 (h2.trans h)
        simp [mapLookup, h2, h3]
      · simp [mapLookup, h2, ih]

theorem mapLookup_mapInsert {α : Type} (m : List (String × α)) (k : String) (v : α)
    (k' : String) :
    mapLookup (mapInsert m k v) k' = if k = k' then some v else mapLookup m k' := by
  simp only [mapInsert, mapLookup, mapLookup_mapRemove]
  by_cases h : k = k'
  · simp [h]
  · have h' : ¬ k' = k := fun hh => h hh.symm
    simp [h, h']

/-! ### The conversation-id bijection invariant (claim C5) -/

theorem bijective_new : SessionStore.new.Bijective := by
  intro c s
  simp [SessionStore.new, mapLookup]

theorem bijective_set_conversation_mapping (st : SessionStore) (conv sid : String)
    (hb : st.Bijective)
    (hc : mapLookup st.conversation_to_session conv = none)
    (hs : mapLookup st.session_to_conversation sid = none) :
    (st.set_conversation_mapping conv sid).Bijective := by
  intro c s
  simp only [SessionStore.set_conversation_mapping, mapLookup_mapInsert]
  by_cases h1 : conv = c
  · by_cases h2 : sid = s
    · simp [h1, h2]
    · simp only [if_pos h1, if_neg h2]
      constructor
      · intro h3
        exact absurd (Option.some.inj h3) h2
      · intro h3
        have h4 := (hb c s).mpr h3
        rw [← h1, hc] at h4
        exact absurd h4 (by simp)
  · by_cases h2 : sid = s
    · simp only [if_neg h1, if_pos h2]
      constructor
      · intro h3
        have h4 := (hb c s).mp h3
        rw [← h2, hs] at h4
        exact absurd h4 (by simp)
      · intro h3
        exact absurd (Option.some.inj h3) h1
    · simp only [if_neg h1, if_neg h2]
      exact hb c s

theorem bijective_add_session (st : SessionStore) (s : Session)
    (hb : st.Bijective)
    (hfresh : ∀ conv, s.conversation_id = some conv →
      mapLookup st.conversation_to_session conv = none ∧
      mapLookup st.session_to_conversation s.session_id = none) :
    (st.add_session s).Bijective := by
  cases hc : s.conversation_id with
  | none =>
    intro c sid
    simp only [SessionStore.add_session, hc]
    exact hb c sid
  | some conv =>
    intro c sid
    have hf := hfresh conv hc
    simp only [SessionStore.add_session, hc]
    exact bijective_set_conversation_mapping st conv s.session_id hb hf.1 hf.2 c sid

theorem bijective_remove_session (st : SessionStore) (sid : String)
    (hb : st.Bijective) :
    (st.remove_session sid).2.Bijective := by
  cases hl : mapLookup st.session_to_conversation sid with
  | none =>
    intro c s
    simp only [SessionStore.remove_session, hl]
    exact hb c s
  | some conv =>
    intro c s
    simp only [SessionStore.remove_session, hl, mapLookup_mapRemove]
    by_cases h1 : c = conv
    · by_cases h2 : s = sid
      · simp [h1, h2]
      · simp only [if_pos h1, if_neg h2]
        constructor
        · intro h3
          exact absurd h3 (by simp)
        · intro h3
          have h4 : mapLookup st.session_to_conversation s = some conv := by
            rw [← h1]; exact h3
          have h5 := (hb conv s).mpr h4
          have h6 := (hb conv sid).mpr hl
          have h7 : s = sid := Option.some.inj (h5.symm.trans h6)
          exact absurd h7 h2
    · by_cases h2 : s = sid
      · simp only [if_neg h1, if_pos h2]
        constructor
        · intro h3
          have h4 := (hb c s).mp h3
          rw [h2, hl] at h4
          have h5 : conv = c := Option.some.inj h4
          exact absurd h5.symm h1
        · intro h3
          exact absurd h3 (by simp)
      · simp only [if_neg h1, if_neg h2]
        exact hb c s

theorem remove_session_clears_both (st : SessionStore) (sid conv : String)
    (hl : mapLookup st.session_to_conversation sid = some conv) :
    mapLookup (st.remove_session sid).2.session_to_conversation sid = none ∧
    mapLookup (st.remove_session sid).2.conversation_to_session conv = none := by
  unfold SessionStore.remove_session
  simp [hl, mapLookup_mapRemove]

/-! ### Behaviour of the retry loop (claim C3 infrastructure) -/

theorem run_with_retry_go_past {α : Type} (f : Nat → Except BackendError α)
    (base mr fuel k : Nat) (last : Option BackendError) (h : mr < k) :
    run_with_retry_go f base mr fuel k last
      = (.error (.RetryExhausted (last.getD .ApiError)), []) := by
  cases fuel with
  | zero => rfl
  | succ fuel => simp [run_with_retry_go, Nat.not_le.mpr h]

theorem run_with_retry_go_all_fail {α : Type} (f : Nat → Except BackendError α)
    (es : Nat → BackendError) (base mr : Nat)
    (hf : ∀ i, i ≤ mr → f i = .error (es i))
    (hr : ∀ i, i ≤ mr → (es i).no_retry = false) :
    ∀ fuel k last, k ≤ mr → mr + 1 - k < fuel →
      run_with_retry_go f base mr fuel k last
        = (.error (.RetryExhausted (es mr)), expected_delays base k (mr - k)) := by
  intro fuel
  induction fuel with
  | zero =>
    intro k last hk hfuel
    omega
  | succ fuel ih =>
    intro k last hk hfuel
    have hfk := hf k hk
    have hrk := hr k hk
    simp only [run_with_retry_go, if_pos hk, hfk, hrk, Bool.false_eq_true, if_false]
    by_cases h2 : k + 1 ≤ mr
    · rw [if_pos h2]
      rw [ih (k + 1) (some (es k)) h2 (by omega)]
      have h3 : mr - k = (mr - (k + 1)) + 1 := by omega
      rw [h3]
      simp [expected_delays]
    · have hk2 : k = mr := by omega
      rw [if_neg h2]
      rw [run_with_retry_go_past f base mr fuel (k + 1) (some (es k)) (by omega)]
      subst hk2
      simp [expected_delays, Nat.sub_self]

theorem run_with_retry_all_fail {α : Type} (f : Nat → Except BackendError α)
    (es : Nat → BackendError) (base mr : Nat)
    (hf : ∀ i, i ≤ mr → f i = .error (es i))
    (hr : ∀ i, i ≤ mr → (es i).no_retry = false) :
    run_with_retry f mr base
      = (.error (.RetryExhausted (es mr)), expected_delays base 0 mr) := by
  unfold run_with_retry
  rw [run_with_retry_go_all_fail f es base mr hf hr (mr + 2) 0 none (by omega) (by omega)]
  simp

theorem run_with_retry_no_retry_propagates {α : Type} (f : Nat → Except BackendError α)
    (mr base : Nat) (e : BackendError)
    (hf : f 0 = .error e) (he : e.no_retry = true) :
    run_with_retry f mr base = (.error e, []) := by
  show run_with_retry_go f base mr ((mr + 1) + 1) 0 none = (.error e, [])
  simp [run_with_retry_go, hf, he, Nat.zero_le]

theorem expected_delays_eq_map (base : Nat) :
    ∀ r k, expected_delays base k r
      = (List.range r).map (fun n => base * 2 ^ (k + n) % 2 ^ 64) := by
  intro r
  induction r with
  | zero => intro k; simp [expected_delays]
  | succ r ih =>
    intro k
    have h1 : ((fun n => base * 2 ^ (k + n) % 2 ^ 64) ∘ Nat.succ)
        = (fun n => base * 2 ^ (k + 1 + n) % 2 ^ 64) := by
      funext n
      simp only [Function.comp]
      have h2 : k + Nat.succ n = k + 1 + n := by omega
      rw [h2]
    simp only [expected_delays, ih (k + 1)]
    rw [List.range_succ_eq_map, List.map_cons, List.map_map, h1]
    simp

/-! ### Circuit-breaker helper lemmas -/

theorem is_open_fst_iff (cb : CircuitBreaker) (now : Nat) :
    (cb.is_open now).1 = true ↔
      (cb.threshold ≤ cb.failures ∧ u64sub now cb.last_failure < cb.reset_timeout_ms) := by
  unfold CircuitBreaker.is_open
  by_cases h1 : cb.threshold ≤ cb.failures
  · by_cases h2 : u64sub now cb.last_failure < cb.reset_timeout_ms
    · simp [h1, h2]
    · simp [h1, h2]
  · simp [h1]

theorem is_open_of_open (cb : CircuitBreaker) (now : Nat)
    (h1 : cb.threshold ≤ cb.failures)
    (h2 : u64sub now cb.last_failure < cb.reset_timeout_ms) :
    cb.is_open now = (true, cb) := by
  unfold CircuitBreaker.is_open
  rw [if_pos h1, if_pos h2]

theorem is_open_of_cooldown (cb : CircuitBreaker) (now : Nat)
    (h1 : cb.threshold ≤ cb.failures)
    (h2 : ¬ u64sub now cb.last_failure < cb.reset_timeout_ms) :
    cb.is_open now = (false, { cb with failures := 0 }) := by
  unfold CircuitBreaker.is_open
  rw [if_pos h1, if_neg h2]

theorem make_api_request_open_iff {α : Type} (cb : CircuitBreaker) (now : Nat)
    (ex : HttpExchange α) :
    (make_api_request (some cb) now ex).1 = .error .CircuitBreakerOpen ↔
      (cb.is_open now).1 = true := by
  unfold make_api_request
  by_cases hb : (cb.is_open now).1 = true
  · simp [hb]
  · rw [if_neg hb]
    constructor
    · intro h3
      exfalso
      cases ex with
      | sendFailure => simp at h3
      | response status parsed =>
        by_cases h4 : status == 403
        · simp [h4] at h3
        · by_cases h5 : isSuccessStatus status
          · cases parsed <;> simp [h4, h5] at h3
          · simp [h4, h5] at h3
    · intro h3
      exact absurd h3 hb

theorem make_api_request_did_io {α : Type} (cb : CircuitBreaker) (now : Nat)
    (ex : HttpExchange α) (h : (cb.is_open now).1 = false) :
    (make_api_request (some cb) now ex).2.2 = true := by
  unfold make_api_request
  rw [if_neg (by simp [h])]
  cases ex with
  | sendFailure => simp
  | response status parsed =>
    by_cases h4 : status == 403
    · simp [h4]
    · by_cases h5 : isSuccessStatus status
      · cases parsed <;> simp [h4, h5]
      · simp [h4, h5]

theorem success_status_ne_403 (st : Nat) (h : isSuccessStatus st = true) :
    (st == 403) = false := by
  simp only [isSuccessStatus, Bool.and_eq_true, decide_eq_true_eq] at h
  simp only [beq_eq_false_iff_ne, ne_eq]
  omega

/-! ### Claim C2 — circuit breaker -/

/-- C2 (amended): a call is rejected as `CircuitBreakerOpen`, before
any network I/O and with the breaker untouched, exactly when the
consecutive-failure count is at least the threshold and less than the
reset cooldown has elapsed since the last recorded failure; after the
cooldown elapses the next call is allowed through as a trial — the
openness check itself zeroes the failure counter — and a success
resets the failure counter to zero.  A failure of the trial call
refreshes the failure timestamp but leaves the counter at 1 (not at
the threshold), so the breaker is open again for the following call
only when the threshold is at most 1. -/
theorem claim_C2_circuit_breaker (cb cbO cbN cbT : CircuitBreaker)
    (now nowO nowN nowT later st : Nat) (ex : HttpExchange Unit) (exO : HttpExchange Unit)
    (hO1 : cbO.threshold ≤ cbO.failures)
    (hO2 : u64sub nowO cbO.last_failure < cbO.reset_timeout_ms)
    (hN : (cbN.is_open nowN).1 = false)
    (hst : isSuccessStatus st = true)
    (hT1 : cbT.threshold ≤ cbT.failures)
    (hT2 : ¬ u64sub nowT cbT.last_failure < cbT.reset_timeout_ms) :
    ((make_api_request (some cb) now ex).1 = .error .CircuitBreakerOpen
       ↔ (cb.threshold ≤ cb.failures ∧ u64sub now cb.last_failure < cb.reset_timeout_ms))
    ∧ make_api_request (some cbO) nowO exO = (.error .CircuitBreakerOpen, some cbO, false)
    ∧ cbT.is_open nowT = (false, { cbT with failures := 0 })
    ∧ (make_api_request (some cbT) nowT (.sendFailure : HttpExchange Unit)).2.2 = true
    ∧ ((make_api_request (some cbN) nowN (.response st (some ()))).2.1).map
        CircuitBreaker.failures = some 0
    ∧ (make_api_request (some cbT) nowT (.sendFailure : HttpExchange Unit)).2.1
        = some { cbT with failures := 1, last_failure := nowT % 2 ^ 64 }
    ∧ (((CircuitBreaker.mk 1 (nowT % 2 ^ 64) cbT.threshold cbT.reset_timeout_ms).is_open
          later).1 = true
       ↔ (cbT.threshold ≤ 1 ∧ u64sub later (nowT % 2 ^ 64) < cbT.reset_timeout_ms)) := by
  have hTopen := is_open_of_cooldown cbT nowT hT1 hT2
  refine ⟨?_, ?_, hTopen, ?_, ?_, ?_, ?_⟩
  · rw [make_api_request_open_iff cb now ex, is_open_fst_iff]
  · simp [make_api_request, is_open_of_open cbO nowO hO1 hO2]
  · exact make_api_request_did_io cbT nowT _ (by rw [hTopen])
  · simp [make_api_request, hN, success_status_ne_403 st hst, hst,
      CircuitBreaker.record_success]
  · simp [make_api_request, hTopen, CircuitBreaker.record_failure]
  · exact is_open_fst_iff _ later

/-- C2 counterexample: with threshold 2 and cooldown 10ms, the breaker
tripped at time 0 is open at time 5; at time 20 the cooldown has
elapsed and a trial call is let through; the trial fails, leaving the
counter at 1 with the timestamp refreshed — yet the following call at
time 21 is not rejected, contradicting the claim that a failed trial
re-arms the open state for the following call. -/
theorem claim_C2_counterexample :
    ((CircuitBreaker.mk 2 0 2 10).is_open 5).1 = true
    ∧ ((CircuitBreaker.mk 2 0 2 10).is_open 20).1 = false
    ∧ (make_api_request (some (CircuitBreaker.mk 2 0 2 10)) 20
        (.sendFailure : HttpExchange Unit)).1 = .error .RequestError
    ∧ (make_api_request (some (CircuitBreaker.mk 2 0 2 10)) 20
        (.sendFailure : HttpExchange Unit)).2.1 = some (CircuitBreaker.mk 1 20 2 10)
    ∧ ((CircuitBreaker.mk 1 20 2 10).is_open 21).1 = false
    ∧ (make_api_request (some (CircuitBreaker.mk 1 20 2 10)) 21
        (.response 200 (some ()) : HttpExchange Unit)).1 = .ok () := by
  decide

/-- C2 witness: the amended theorem applied at concrete breakers. -/
theorem claim_C2_circuit_breaker_witness :
    ((make_api_request (some (CircuitBreaker.mk 0 0 5 30000)) 3
        (.sendFailure : HttpExchange Unit)).1 = .error .CircuitBreakerOpen
       ↔ ((CircuitBreaker.mk 0 0 5 30000).threshold ≤ (CircuitBreaker.mk 0 0 5 30000).failures
          ∧ u64sub 3 (CircuitBreaker.mk 0 0 5 30000).last_failure
              < (CircuitBreaker.mk 0 0 5 30000).reset_timeout_ms))
    ∧ make_api_request (some (CircuitBreaker.mk 5 0 5 30000)) 7
        (.response 200 (some ()) : HttpExchange Unit)
        = (.error .CircuitBreakerOpen, some (CircuitBreaker.mk 5 0 5 30000), false)
    ∧ (CircuitBreaker.mk 5 0 5 30000).is_open 40000
        = (false, CircuitBreaker.mk 0 0 5 30000)
    ∧ (make_api_request (some (CircuitBreaker.mk 5 0 5 30000)) 40000
        (.sendFailure : HttpExchange Unit)).2.2 = true
    ∧ ((make_api_request (some (CircuitBreaker.mk 2 0 5 30000)) 9
        (.response 204 (some ()) : HttpExchange Unit)).2.1).map
          CircuitBreaker.failures = some 0
    ∧ (make_api_request (some (CircuitBreaker.mk 5 0 5 30000)) 40000
        (.sendFailure : HttpExchange Unit)).2.1
        = some (CircuitBreaker.mk 1 (40000 % 2 ^ 64) 5 30000)
    ∧ (((CircuitBreaker.mk 1 (40000 % 2 ^ 64) 5 30000).is_open 40001).1 = true
       ↔ (5 ≤ 1 ∧ u64sub 40001 (40000 % 2 ^ 64) < 30000)) :=
  claim_C2_circuit_breaker
    (CircuitBreaker.mk 0 0 5 30000) (CircuitBreaker.mk 5 0 5 30000)
    (CircuitBreaker.mk 2 0 5 30000) (CircuitBreaker.mk 5 0 5 30000)
    3 7 9 40000 40001 204 .sendFailure (.response 200 (some ()))
    (by decide) (by decide) (by decide) (by decide) (by decide) (by decide)

/-! ### Claim C3 — retry wrapper -/

theorem no_retry_eq_false_iff (e : BackendError) :
    e.no_retry = false ↔ (e ≠ .AuthError ∧ e ≠ .CircuitBreakerOpen) := by
  cases e <;> simp [BackendError.no_retry]

/-- C3: through the retry wrapper, an authentication failure or a
circuit-open failure on the first call is propagated immediately with
no retry and no delay; when the call fails a retryable error on all
`max_retries + 1` attempts (the wrapper's maximum attempt count), the
wrapper returns `RetryExhausted` wrapping the last underlying failure,
and the n-th retry (n = 1, …, max_retries) is preceded by a delay of
exactly `base_delay_ms * 2 ^ (n-1)` (entry n-1 of the delay list). -/
theorem claim_C3_retry_policy {α : Type} (f g : Nat → Except BackendError α)
    (es : Nat → BackendError) (max_retries base_delay_ms : Nat) (e0 : BackendError)
    (hg : g 0 = .error e0)
    (he0 : e0 = .AuthError ∨ e0 = .CircuitBreakerOpen)
    (hf : ∀ i, i ≤ max_retries → f i = .error (es i))
    (hr : ∀ i, i ≤ max_retries → es i ≠ .AuthError ∧ es i ≠ .CircuitBreakerOpen)
    (hov : base_delay_ms * 2 ^ max_retries < 2 ^ 64) :
    run_with_retry g max_retries base_delay_ms = (.error e0, [])
    ∧ run_with_retry f max_retries base_delay_ms
        = (.error (.RetryExhausted (es max_retries)),
           (List.range max_retries).map (fun n => base_delay_ms * 2 ^ n)) := by
  constructor
  · refine run_with_retry_no_retry_propagates g max_retries base_delay_ms e0 hg ?_
    rcases he0 with h | h <;> simp [h, BackendError.no_retry]
  · rw [run_with_retry_all_fail f es base_delay_ms max_retries hf
      (fun i hi => (no_retry_eq_false_iff (es i)).mpr (hr i hi))]
    rw [expected_delays_eq_map]
    refine congrArg _ ?_
    refine List.map_congr_left ?_
    intro n hn
    have hn2 : n < max_retries := List.mem_range.mp hn
    have hle : base_delay_ms * 2 ^ (0 + n) ≤ base_delay_ms * 2 ^ max_retries := by
      refine Nat.mul_le_mul_left base_delay_ms ?_
      exact Nat.pow_le_pow_right (by norm_num) (by omega)
    have hlt : base_delay_ms * 2 ^ (0 + n) < 2 ^ 64 := lt_of_le_of_lt hle hov
    rw [Nat.mod_eq_of_lt hlt]
    rw [Nat.zero_add]

/-- C3 witness: the policy at `max_retries = 3`, `base = 100`. -/
theorem claim_C3_retry_policy_witness :
    run_with_retry (fun _ => (.error .AuthError : Except BackendError Unit)) 3 100
      = (.error .AuthError, [])
    ∧ run_with_retry (fun _ => (.error .RequestError : Except BackendError Unit)) 3 100
        = (.error (.RetryExhausted .RequestError), [100, 200, 400]) := by
  have h := claim_C3_retry_policy
    (fun _ => (.error .RequestError : Except BackendError Unit))
    (fun _ => (.error .AuthError : Except BackendError Unit))
    (fun _ => .RequestError) 3 100 .AuthError rfl (Or.inl rfl)
    (fun _ _ => rfl) (fun _ _ => ⟨(fun h => nomatch h), (fun h => nomatch h)⟩) (by decide)
  refine ⟨h.1, ?_⟩
  rw [h.2]
  rfl

/-! ### Claim C9 — circuit-breaker accounting of failed start calls -/

/-- C9 (amended): when the breaker check lets the call through, a
transport failure and a non-403 error status each record a failure
(incrementing the count and refreshing the timestamp), but a 403
authentication failure leaves the breaker untouched, and a JSON-decode
failure after a success status even records a success — so not every
class of failure records a circuit-breaker failure. -/
theorem claim_C9_failure_accounting (cb : CircuitBreaker) (now stE stS : Nat)
    (hopen : (cb.is_open now).1 = false)
    (hE403 : (stE == 403) = false)
    (hEfail : isSuccessStatus stE = false)
    (hS : isSuccessStatus stS = true) :
    (make_api_request (some cb) now (.sendFailure : HttpExchange Unit)).2.1
        = some (((cb.is_open now).2).record_failure now)
    ∧ (make_api_request (some cb) now (.response stE (none : Option Unit))).2.1
        = some (((cb.is_open now).2).record_failure now)
    ∧ (make_api_request (some cb) now (.response 403 (none : Option Unit))).1
        = .error .AuthError
    ∧ (make_api_request (some cb) now (.response 403 (none : Option Unit))).2.1
        = some ((cb.is_open now).2)
    ∧ (make_api_request (some cb) now (.response stS (none : Option Unit))).1
        = .error .JsonError
    ∧ (make_api_request (some cb) now (.response stS (none : Option Unit))).2.1
        = some (((cb.is_open now).2).record_success) := by
  refine ⟨?_, ?_, ?_, ?_, ?_, ?_⟩ <;>
    simp [make_api_request, hopen, hE403, hEfail, hS, success_status_ne_403 stS hS]

/-- C9 counterexample: a speculative start call failing with 403
(`AuthError`) does not increment the consecutive-failure count, and a
JSON-decode failure resets a count of 3 to 0 instead of incrementing
it — refuting "for every class of failure". -/
theorem claim_C9_counterexample :
    (make_api_request (some (CircuitBreaker.new 5 30000)) 7
        (.response 403 (none : Option Unit))).1 = .error .AuthError
    ∧ ((make_api_request (some (CircuitBreaker.new 5 30000)) 7
        (.response 403 (none : Option Unit))).2.1).map CircuitBreaker.failures = some 0
    ∧ (make_api_request (some (CircuitBreaker.mk 3 0 5 30000)) 7
        (.response 200 (none : Option Unit))).1 = .error .JsonError
    ∧ ((make_api_request (some (CircuitBreaker.mk 3 0 5 30000)) 7
        (.response 200 (none : Option Unit))).2.1).map CircuitBreaker.failures = some 0 := by
  decide

/-- C9 witness: the amended accounting at a concrete breaker. -/
theorem claim_C9_failure_accounting_witness :
    (make_api_request (some (CircuitBreaker.mk 1 2 5 30000)) 9
        (.sendFailure : HttpExchange Unit)).2.1
        = some ((((CircuitBreaker.mk 1 2 5 30000).is_open 9).2).record_failure 9)
    ∧ (make_api_request (some (CircuitBreaker.mk 1 2 5 30000)) 9
        (.response 500 (none : Option Unit))).2.1
        = some ((((CircuitBreaker.mk 1 2 5 30000).is_open 9).2).record_failure 9)
    ∧ (make_api_request (some (CircuitBreaker.mk 1 2 5 30000)) 9
        (.response 403 (none : Option Unit))).1 = .error .AuthError
    ∧ (make_api_request (some (CircuitBreaker.mk 1 2 5 30000)) 9
        (.response 403 (none : Option Unit))).2.1
        = some (((CircuitBreaker.mk 1 2 5 30000).is_open 9).2)
    ∧ (make_api_request (some (CircuitBreaker.mk 1 2 5 30000)) 9
        (.response 200 (none : Option Unit))).1 = .error .JsonError
    ∧ (make_api_request (some (CircuitBreaker.mk 1 2 5 30000)) 9
        (.response 200 (none : Option Unit))).2.1
        = some ((((CircuitBreaker.mk 1 2 5 30000).is_open 9).2).record_success) :=
  claim_C9_failure_accounting (CircuitBreaker.mk 1 2 5 30000) 9 500 200
    (by decide) (by decide) (by decide) (by decide)

/-! ### Session projection lemmas -/

theorem update_activity_time_generation (s : Session) (now : Nat) :
    (s.update_activity_time now).generation = s.generation := rfl

theorem update_activity_time_session_ends (s : Session) (now : Nat) :
    (s.update_activity_time now).session_ends = s.session_ends := rfl

theorem update_activity_time_unstable (s : Session) (now : Nat) :
    (s.update_activity_time now).unstable_speech_result = s.unstable_speech_result := rfl

theorem is_the_same_update_activity (s : Session) (now : Nat) (t : String) :
    (s.update_activity_time now).unstable_speech_result_is_the_same t
      = s.unstable_speech_result_is_the_same t := rfl

/-! ### Claim C1 — duplicate-partial suppression -/

/-- C1: (i) for every session whose generation flag is true and whose
recorded in-flight unstable transcript normalizes to the same string
as the incoming partial text, the partial handler issues no backend
start call; (ii) in a two-event run from a session with no generation
in flight, the first accepted partial issues a start call, a second
partial with identical normalized text issues none (exactly one start
in total), while a third partial whose normalized text differs in any
way issues a new start call. -/
theorem claim_C1_duplicate_partial_suppression
    (stS : SessionStore) (sidS call_sidS : String) (sS : Session) (textS : String)
    (resS : Except BackendError Unit) (nowS : Nat) (ppS : Bool)
    (hconvS : mapLookup stS.conversation_to_session call_sidS = some sidS)
    (hsessS : mapLookup stS.sessions sidS = some sS)
    (hgenS : sS.generation = true)
    (hsameS : sS.unstable_speech_result_is_the_same textS = true)
    (st : SessionStore) (sid call_sid : String) (s : Session)
    (text1 text2 text3 : String) (res2 res3 : Except BackendError Unit)
    (now now2 now3 : Nat)
    (hconv : mapLookup st.conversation_to_session call_sid = some sid)
    (hsess : mapLookup st.sessions sid = some s)
    (hends : s.session_ends = false)
    (hgen : s.generation = false)
    (hp1 : ends_with_sentence_punctuation text1 = true)
    (hn2 : normalize text2 = normalize text1)
    (hp3 : ends_with_sentence_punctuation text3 = true)
    (hn3 : normalize text3 ≠ normalize text1) :
    (handle_partial_callback ppS stS call_sidS textS resS nowS).2.1 = false
    ∧ (handle_partial_callback true st call_sid text1 (.ok ()) now).2.1 = true
    ∧ (handle_partial_callback true
        (handle_partial_callback true st call_sid text1 (.ok ()) now).2.2
        call_sid text2 res2 now2).2.1 = false
    ∧ (handle_partial_callback true
        (handle_partial_callback true st call_sid text1 (.ok ()) now).2.2
        call_sid text3 res3 now3).2.1 = true := by
  have hfirst :
      handle_partial_callback true st call_sid text1 (.ok ()) now
        = (.ok, true,
           { st with sessions :=
                          mapInsert st.sessions sid
                            ({ s.update_activity_time now with
                               run_in_progress := true, speech_in_progress := false,
                               unstable_speech_result := some text1,
                               generation := true }) }) := by
    simp [handle_partial_callback, hp1, hconv, hsess,
      update_activity_time_session_ends, hends,
      update_activity_time_generation, hgen]
  refine ⟨?_, ?_, ?_, ?_⟩
  · cases ppS with
    | false => simp [handle_partial_callback]
    | true =>
      by_cases hp : ends_with_sentence_punctuation textS
      · by_cases he : sS.session_ends
        · simp [handle_partial_callback, hp, hconvS, hsessS,
            update_activity_time_session_ends, he]
        · simp [handle_partial_callback, hp, hconvS, hsessS,
            update_activity_time_session_ends, he,
            update_activity_time_generation, hgenS,
            is_the_same_update_activity, hsameS]
      · simp [handle_partial_callback, hp]
  · rw [hfirst]
  · rw [hfirst]
    by_cases hp2 : ends_with_sentence_punctuation text2
    · simp [handle_partial_callback, hp2, hconv, mapLookup_mapInsert,
        update_activity_time_session_ends, hends,
        update_activity_time_generation, update_activity_time_unstable,
        is_the_same_update_activity, Session.unstable_speech_result_is_the_same,
        hn2]
    · simp [handle_partial_callback, hp2]
  · rw [hfirst]
    have hne : (normalize text1 == normalize text3) = false := by
      simp only [beq_eq_false_iff_ne, ne_eq]
      exact fun h => hn3 h.symm
    cases res3 with
    | ok v =>
      simp [handle_partial_callback, hp3, hconv, mapLookup_mapInsert,
        update_activity_time_session_ends, hends,
        update_activity_time_unstable,
        is_the_same_update_activity, Session.unstable_speech_result_is_the_same,
        hne]
    | error e =>
      simp [handle_partial_callback, hp3, hconv, mapLookup_mapInsert,
        update_activity_time_session_ends, hends,
        update_activity_time_unstable,
        is_the_same_update_activity, Session.unstable_speech_result_is_the_same,
        hne]

/-- C1 witness: the suppression scenario run on a concrete store, with
"Hello there." / "hello   there." (identical normalized text) and
"Hello world." (different normalized text). -/
theorem claim_C1_duplicate_partial_suppression_witness :
    (handle_partial_callback true exGenStore "CA1" "hello there." (.ok ()) 9).2.1 = false
    ∧ (handle_partial_callback true exStore "CA1" "Hello there." (.ok ()) 1).2.1 = true
    ∧ (handle_partial_callback true
        (handle_partial_callback true exStore "CA1" "Hello there." (.ok ()) 1).2.2
        "CA1" "hello   there." (.ok ()) 2).2.1 = false
    ∧ (handle_partial_callback true
        (handle_partial_callback true exStore "CA1" "Hello there." (.ok ()) 1).2.2
        "CA1" "Hello world." (.ok ()) 3).2.1 = true :=
  claim_C1_duplicate_partial_suppression
    exGenStore "S1" "CA1" exGenSession "hello there." (.ok ()) 9 true
    (by decide) (by decide) (by decide) (by decide)
    exStore "S1" "CA1" exSession "Hello there." "hello   there." "Hello world."
    (.ok ()) (.ok ()) 1 2 3
    (by decide) (by decide) (by decide) (by decide) (by decide) (by decide)
    (by decide) (by decide)

/-! ### Claim C10 — no recorded transcript means no suppression -/

/-- C10: when a session has no recorded unstable transcript, the
duplicate check returns false for every input string, and therefore a
sentence-terminated partial transcript accepted for such a session is
never suppressed: it always issues the speculative start call. -/
theorem claim_C10_first_partial_triggers (sA : Session) (tA : String)
    (st : SessionStore) (sid call_sid text : String) (s : Session)
    (res : Except BackendError Unit) (now : Nat)
    (hA : sA.unstable_speech_result = none)
    (hconv : mapLookup st.conversation_to_session call_sid = some sid)
    (hsess : mapLookup st.sessions sid = some s)
    (hnone : s.unstable_speech_result = none)
    (hends : s.session_ends = false)
    (hp : ends_with_sentence_punctuation text = true) :
    sA.unstable_speech_result_is_the_same tA = false
    ∧ (handle_partial_callback true st call_sid text res now).2.1 = true := by
  constructor
  · simp [Session.unstable_speech_result_is_the_same, hA]
  · cases res with
    | ok v =>
      simp [handle_partial_callback, hp, hconv, hsess,
        update_activity_time_session_ends, hends,
        update_activity_time_unstable, is_the_same_update_activity,
        Session.unstable_speech_result_is_the_same, hnone]
    | error e =>
      simp [handle_partial_callback, hp, hconv, hsess,
        update_activity_time_session_ends, hends,
        update_activity_time_unstable, is_the_same_update_activity,
        Session.unstable_speech_result_is_the_same, hnone]

/-- C10 witness: a fresh session (no recorded transcript) accepts its
first sentence-terminated partial and starts generation. -/
theorem claim_C10_first_partial_triggers_witness :
    exSession.unstable_speech_result_is_the_same "anything at all" = false
    ∧ (handle_partial_callback true exStore "CA1" "Hello there." (.ok ()) 4).2.1 = true :=
  claim_C10_first_partial_triggers exSession "anything at all"
    exStore "S1" "CA1" "Hello there." exSession (.ok ()) 4
    (by decide) (by decide) (by decide) (by decide) (by decide) (by decide)

/-! ### Claim C4 — failed speculative start -/

/-- C4 (amended): when the speculative backend start call issued by the
partial-transcript handler fails, the handler does reset the session's
generation flag to false, but the failure is not swallowed: the
webhook response returned to the carrier is an InternalServerError
status, not a success. -/
theorem claim_C4_failed_start (st : SessionStore) (sid call_sid text : String)
    (s : Session) (err : BackendError) (now : Nat)
    (hconv : mapLookup st.conversation_to_session call_sid = some sid)
    (hsess : mapLookup st.sessions sid = some s)
    (hends : s.session_ends = false)
    (hproc : (!s.generation || !(s.unstable_speech_result_is_the_same text)) = true)
    (hp : ends_with_sentence_punctuation text = true) :
    (handle_partial_callback true st call_sid text (.error err) now).1
        = .internalServerError
    ∧ (handle_partial_callback true st call_sid text (.error err) now).2.1 = true
    ∧ ((handle_partial_callback true st call_sid text (.error err) now).2.2.get_session
        sid).map Session.generation = some false := by
  have hproc2 : s.generation = false ∨ s.unstable_speech_result_is_the_same text = false := by
    simpa using hproc
  rcases hproc2 with h | h <;>
    refine ⟨?_, ?_, ?_⟩ <;>
    simp [handle_partial_callback, hp, hconv, hsess,
      update_activity_time_session_ends, hends,
      update_activity_time_generation, is_the_same_update_activity, h,
      SessionStore.modify_session, SessionStore.get_session, mapLookup_mapInsert]

/-- C4 counterexample: a concrete failed start call yields an
InternalServerError webhook status (not a success), refuting "the
webhook response returned to the carrier is still a success". -/
theorem claim_C4_counterexample :
    (handle_partial_callback true exStore "CA1" "Hello there."
        (.error .RequestError) 5).1 = .internalServerError
    ∧ ¬ (handle_partial_callback true exStore "CA1" "Hello there."
        (.error .RequestError) 5).1 = .ok
    ∧ ((handle_partial_callback true exStore "CA1" "Hello there."
        (.error .RequestError) 5).2.2.get_session "S1").map Session.generation
        = some false := by
  decide

/-- C4 witness: the amended behaviour at a concrete store. -/
theorem claim_C4_failed_start_witness :
    (handle_partial_callback true exStore "CA1" "Hi there."
        (.error .ApiError) 6).1 = .internalServerError
    ∧ (handle_partial_callback true exStore "CA1" "Hi there."
        (.error .ApiError) 6).2.1 = true
    ∧ ((handle_partial_callback true exStore "CA1" "Hi there."
        (.error .ApiError) 6).2.2.get_session "S1").map Session.generation
        = some false :=
  claim_C4_failed_start exStore "S1" "CA1" "Hi there." exSession .ApiError 6
    (by decide) (by decide) (by decide) (by decide) (by decide)

/-! ### Claim C8 — session-lookup miss on a final transcript -/

/-- C8: a final-transcript event for a conversation id with no
registered session returns a spoken "your session has expired"
message followed by a hangup, and the store is returned unchanged (no
session state is created or modified). -/
theorem claim_C8_session_miss (st : SessionStore) (call_sid transcription : String)
    (backend_result : Except BackendError RunResult) (now : Nat)
    (hmiss : mapLookup st.conversation_to_session call_sid = none) :
    handle_call_transcription st call_sid transcription backend_result now
      = (.hangup (some "Sorry, your session has expired."), st) := by
  simp [handle_call_transcription, hmiss]

/-- C8 witness: the miss behaviour on the empty store. -/
theorem claim_C8_session_miss_witness :
    handle_call_transcription SessionStore.new "CA9" "hi" (.error .RequestError) 5
      = (.hangup (some "Sorry, your session has expired."), SessionStore.new) :=
  claim_C8_session_miss SessionStore.new "CA9" "hi" (.error .RequestError) 5 (by decide)

/-! ### Claim C6 — conversation-ended metadata -/

/-- C6 (amended): when a final-transcript backend run returns a result
whose metadata marks the conversation ended, the handler sets the
session's ending flag to true and returns a hangup action that speaks
the result's response text when one is present; a subsequent
transcript event for the same conversation, whose session still has
the ending flag set (the flag never reverts), returns a hangup with no
spoken message — the expired-session message is produced only on a
session-lookup miss, not here. -/
theorem claim_C6_session_ending
    (st : SessionStore) (sid call_sid transcription : String) (s : Session)
    (r : RunResult) (now : Nat)
    (hconv : mapLookup st.conversation_to_session call_sid = some sid)
    (hsess : mapLookup st.sessions sid = some s)
    (hends : s.session_ends = false)
    (hgen : s.generation = false)
    (hmeta : r.metadata_session_ends = some true)
    (st2 : SessionStore) (sid2 call_sid2 t2 : String) (s2 : Session)
    (res2 : Except BackendError RunResult) (now2 : Nat)
    (hconv2 : mapLookup st2.conversation_to_session call_sid2 = some sid2)
    (hsess2 : mapLookup st2.sessions sid2 = some s2)
    (hends2 : s2.session_ends = true) :
    (handle_call_transcription st call_sid transcription (.ok r) now).1
        = .hangup r.response
    ∧ (((handle_call_transcription st call_sid transcription (.ok r) now).2).get_session
        sid).map Session.session_ends = some true
    ∧ (handle_call_transcription st2 call_sid2 t2 res2 now2).1 = .hangup none
    ∧ (((handle_call_transcription st2 call_sid2 t2 res2 now2).2).get_session
        sid2).map Session.session_ends = some true := by
  refine ⟨?_, ?_, ?_, ?_⟩
  · cases hr : r.response <;>
      simp [handle_call_transcription, hconv, hsess,
        update_activity_time_session_ends, hends,
        update_activity_time_generation, hgen, hmeta, hr,
        SessionStore.modify_session, mapLookup_mapInsert]
  · cases hr : r.response <;>
      simp [handle_call_transcription, hconv, hsess,
        update_activity_time_session_ends, hends,
        update_activity_time_generation, hgen, hmeta, hr,
        SessionStore.modify_session, SessionStore.get_session, mapLookup_mapInsert]
  · simp [handle_call_transcription, hconv2, hsess2,
      update_activity_time_session_ends, hends2]
  · simp [handle_call_transcription, hconv2, hsess2,
      update_activity_time_session_ends, hends2,
      SessionStore.get_session, mapLookup_mapInsert]

/-- C6 counterexample: a subsequent transcript event for an
already-ended (still registered) session returns a hangup with no
spoken message, not the expired-session hangup message the claim
requires. -/
theorem claim_C6_counterexample :
    (handle_call_transcription exEndedStore "CA1" "hello"
        (.ok (RunResult.mk none none)) 5).1 = .hangup none
    ∧ ¬ (handle_call_transcription exEndedStore "CA1" "hello"
        (.ok (RunResult.mk none none)) 5).1
        = .hangup (some "Sorry, your session has expired.") := by
  decide

/-- C6 witness: the amended behaviour at a concrete store: the run
result "Goodbye." with SESSION_ENDS=true produces a speak-then-hangup
and marks the session ended; the ended session then gets a bare
hangup. -/
theorem claim_C6_session_ending_witness :
    (handle_call_transcription exStore "CA1" "bye"
        (.ok (RunResult.mk (some "Goodbye.") (some true))) 5).1
        = .hangup (RunResult.mk (some "Goodbye.") (some true)).response
    ∧ (((handle_call_transcription exStore "CA1" "bye"
        (.ok (RunResult.mk (some "Goodbye.") (some true))) 5).2).get_session
        "S1").map Session.session_ends = some true
    ∧ (handle_call_transcription exEndedStore "CA1" "again"
        (.ok (RunResult.mk none none)) 6).1 = .hangup none
    ∧ (((handle_call_transcription exEndedStore "CA1" "again"
        (.ok (RunResult.mk none none)) 6).2).get_session
        "S1").map Session.session_ends = some true :=
  claim_C6_session_ending exStore "S1" "CA1" "bye" exSession
    (RunResult.mk (some "Goodbye.") (some true)) 5
    (by decide) (by decide) (by decide) (by decide) (by decide)
    exEndedStore "S1" "CA1" "again" exEndedSession
    (.ok (RunResult.mk none none)) 6
    (by decide) (by decide) (by decide)

/-! ### Claim C7 — degradation on unrecoverable failures -/

/-- C7 (amended): an unrecoverable backend failure during call setup
produces a spoken apology followed by a hangup; an unrecoverable
backend failure during final-transcript turn generation produces a
spoken apology but keeps the call open (a gather/voice response, not a
hangup) — in both cases something is spoken, never a silent line. -/
theorem claim_C7_failure_degradation (e1 e2 : BackendError)
    (r : OpenSessionOutcome)
    (st : SessionStore) (sid call_sid t : String) (s : Session) (now : Nat)
    (hconv : mapLookup st.conversation_to_session call_sid = some sid)
    (hsess : mapLookup st.sessions sid = some s)
    (hends : s.session_ends = false)
    (hgen : s.generation = false) :
    handle_incoming_call false (.ok r)
        = .hangup (some "Sorry, we\x27re experiencing technical difficulties.")
    ∧ handle_incoming_call true (.error e1)
        = .hangup (some "Sorry, we\x27re experiencing technical difficulties.")
    ∧ (handle_call_transcription st call_sid t (.error e2) now).1
        = .voice "I\x27m sorry, I\x27m having trouble processing your request right now."
    ∧ ((handle_call_transcription st call_sid t (.error e2) now).1).is_hangup
        = false := by
  refine ⟨rfl, rfl, ?_, ?_⟩ <;>
    simp [handle_call_transcription, hconv, hsess,
      update_activity_time_session_ends, hends,
      update_activity_time_generation, hgen,
      SessionStore.modify_session, mapLookup_mapInsert, TwimlAction.is_hangup]

/-- C7 counterexample: a turn-generation failure yields a spoken
apology with the call kept open (a voice/gather action), not the
apology-and-hangup the claim requires. -/
theorem claim_C7_counterexample :
    (handle_call_transcription exStore "CA1" "hi." (.error .RequestError) 5).1
        = .voice "I\x27m sorry, I\x27m having trouble processing your request right now."
    ∧ ((handle_call_transcription exStore "CA1" "hi."
        (.error .RequestError) 5).1).is_hangup = false := by
  decide

/-- C7 witness: the amended degradation behaviour at concrete inputs. -/
theorem claim_C7_failure_degradation_witness :
    handle_incoming_call false (.ok (OpenSessionOutcome.mk none))
        = .hangup (some "Sorry, we\x27re experiencing technical difficulties.")
    ∧ handle_incoming_call true (.error .RequestError)
        = .hangup (some "Sorry, we\x27re experiencing technical difficulties.")
    ∧ (handle_call_transcription exStore "CA1" "weather" (.error .ApiError) 8).1
        = .voice "I\x27m sorry, I\x27m having trouble processing your request right now."
    ∧ ((handle_call_transcription exStore "CA1" "weather" (.error .ApiError) 8).1).is_hangup
        = false :=
  claim_C7_failure_degradation .RequestError .ApiError (OpenSessionOutcome.mk none)
    exStore "S1" "CA1" "weather" exSession 8
    (by decide) (by decide) (by decide) (by decide)

/-! ### Claim C5 — conversation-id↔session-id bijection -/

/-- C5 (amended): the two index maps form a bijection in the empty
store, and every registry operation preserves it *provided the
attached identifiers are fresh*: adding a session whose conversation
id is not yet mapped and whose session id has no mapping, and
attaching a fresh conversation mapping, both preserve the bijection
and register both directions; removing a session preserves the
bijection and deletes both index directions of its recorded pair.
Without the freshness proviso the operations can break the bijection
(see the counterexample). -/
theorem claim_C5_bijection
    (stA : SessionStore) (sA : Session) (convA : String)
    (hbA : stA.Bijective)
    (hcidA : sA.conversation_id = some convA)
    (hcA : mapLookup stA.conversation_to_session convA = none)
    (hsA : mapLookup stA.session_to_conversation sA.session_id = none)
    (stB : SessionStore) (convB sidB : String)
    (hbB : stB.Bijective)
    (hcB : mapLookup stB.conversation_to_session convB = none)
    (hsB : mapLookup stB.session_to_conversation sidB = none)
    (stC : SessionStore) (sidC convC : String)
    (hbC : stC.Bijective)
    (hlC : mapLookup stC.session_to_conversation sidC = some convC) :
    SessionStore.new.Bijective
    ∧ (stA.add_session sA).Bijective
    ∧ (stB.set_conversation_mapping convB sidB).Bijective
    ∧ mapLookup (stB.set_conversation_mapping convB sidB).conversation_to_session convB
        = some sidB
    ∧ mapLookup (stB.set_conversation_mapping convB sidB).session_to_conversation sidB
        = some convB
    ∧ (stC.remove_session sidC).2.Bijective
    ∧ mapLookup (stC.remove_session sidC).2.session_to_conversation sidC = none
    ∧ mapLookup (stC.remove_session sidC).2.conversation_to_session convC = none := by
  have hfreshA : ∀ conv, sA.conversation_id = some conv →
      mapLookup stA.conversation_to_session conv = none ∧
      mapLookup stA.session_to_conversation sA.session_id = none := by
    intro conv hconv
    rw [hcidA] at hconv
    have h := Option.some.inj hconv
    subst h
    exact ⟨hcA, hsA⟩
  refine ⟨bijective_new, bijective_add_session stA sA hbA hfreshA,
    bijective_set_conversation_mapping stB convB sidB hbB hcB hsB, ?_, ?_,
    bijective_remove_session stC sidC hbC,
    (remove_session_clears_both stC sidC convC hlC).1,
    (remove_session_clears_both stC sidC convC hlC).2⟩
  · simp [SessionStore.set_conversation_mapping, mapLookup_mapInsert]
  · simp [SessionStore.set_conversation_mapping, mapLookup_mapInsert]

/-- C5 counterexample: building a store through `add_session` alone
with two sessions carrying the same conversation id leaves a
registered session (S1, holding conversation id CA1) whose
conversation lookup yields the other session's id, and two session
ids both mapped to CA1 — the bijection claimed for *every* registry
operation does not hold. -/
theorem claim_C5_counterexample :
    (exDupStore.get_session "S1").map Session.conversation_id = some (some "CA1")
    ∧ exDupStore.get_session_id_by_conversation "CA1" = some "S2"
    ∧ mapLookup exDupStore.session_to_conversation "S1" = some "CA1"
    ∧ mapLookup exDupStore.session_to_conversation "S2" = some "CA1"
    ∧ ¬ ("S2" = "S1") := by
  decide

/-- C5 witness: the amended preservation statement at concrete
stores. -/
theorem claim_C5_bijection_witness :
    SessionStore.new.Bijective
    ∧ (SessionStore.new.add_session exSession).Bijective
    ∧ (SessionStore.new.set_conversation_mapping "CA1" "S1").Bijective
    ∧ mapLookup (SessionStore.new.set_conversation_mapping
        "CA1" "S1").conversation_to_session "CA1" = some "S1"
    ∧ mapLookup (SessionStore.new.set_conversation_mapping
        "CA1" "S1").session_to_conversation "S1" = some "CA1"
    ∧ ((SessionStore.new.set_conversation_mapping "CA1" "S1").remove_session
        "S1").2.Bijective
    ∧ mapLookup ((SessionStore.new.set_conversation_mapping "CA1" "S1").remove_session
        "S1").2.session_to_conversation "S1" = none
    ∧ mapLookup ((SessionStore.new.set_conversation_mapping "CA1" "S1").remove_session
        "S1").2.conversation_to_session "CA1" = none :=
  claim_C5_bijection
    SessionStore.new exSession "CA1" bijective_new (by decide) (by decide) (by decide)
    SessionStore.new "CA1" "S1" bijective_new (by decide) (by decide)
    (SessionStore.new.set_conversation_mapping "CA1" "S1") "S1" "CA1"
    (bijective_set_conversation_mapping SessionStore.new "CA1" "S1" bijective_new
      (by decide) (by decide))
    (by decide)

end TwilioBot
